import Mathlib

/-!
Verification of the Pentagon Pizza Index pipeline (repository The-Pizza-Meter).

The development shallowly embeds the signal-normalization, anomaly-scoring,
aggregation and correlation logic of the repository:

 - src/src/dashboard.py        (get_live_popularity, get_market_data,
                                generate_simulated_historical_data, get_data,
                                and the in-template getAnomalyClass,
                                getAnomalyText, updateAlertBanner functions)
 - src/src/robust_scraper_poc.py (fetch_sensor_data signal computation)
 - src/src/test_scraper.py     (calculate_trend, generate_report composite)

Numeric readings and prices are embedded as rationals (Python performs exact
integer arithmetic on the readings and real division for the percentages; no
claim in scope depends on float rounding error).  Values that may be missing
(Python None) are embedded as Option.  Provider calls (livepopulartimes,
yfinance) are external collaborators; their outcomes are passed to the embedded
functions as Except values, so a raised provider exception is the Except.error
case and the try/except absorption in the source becomes a total function.
-/

namespace PPI

/-- Provenance of a normalized current value: directly observed, backfilled
from history, or not obtainable.  In dashboard.py the three states appear as
is_fallback = False with a present value, is_fallback = True, and a missing
value respectively. -/
inductive Provenance where
  | live
  | imputed
  | unavailable
deriving DecidableEq

/-- Backward scan of dashboard.py get_live_popularity lines 76-81:
for h in range(hour, -1, -1): if h < len(today_data) and today_data[h] > 0.
The bound check h < len is subsumed here by getD returning the default 0,
which never satisfies 0 < value. -/
def scanBackFrom (l : List ℚ) : ℕ → Option (ℚ × ℕ)
  | 0 => if 0 < l.getD 0 0 then some (l.getD 0 0, 0) else none
  | h + 1 =>
    if 0 < l.getD (h + 1) 0 then some (l.getD (h + 1) 0, h + 1)
    else scanBackFrom l h

/-- Previous-day evening scan of dashboard.py get_live_popularity lines 88-92:
for h in range(23, 17, -1): if h < len(prev_data) and prev_data[h] > 0.
As in scanBackFrom, the length check is subsumed by the getD default. -/
def scanEvening (l : List ℚ) : Option (ℚ × ℕ) :=
  if 0 < l.getD 23 0 then some (l.getD 23 0, 23)
  else if 0 < l.getD 22 0 then some (l.getD 22 0, 22)
  else if 0 < l.getD 21 0 then some (l.getD 21 0, 21)
  else if 0 < l.getD 20 0 then some (l.getD 20 0, 20)
  else if 0 < l.getD 19 0 then some (l.getD 19 0, 19)
  else if 0 < l.getD 18 0 then some (l.getD 18 0, 18)
  else none

/-- Reading Normalizer: the fallback logic of dashboard.py get_live_popularity
lines 70-96, presented through the spec §4.1 contract
normalize(current, hourly_series, current_hour, previous_day_evening).
The source guards the whole fallback block with
`if current_pop is None and today_data:`, so an empty hourly series skips both
scans; the previous-day branch additionally requires the populartimes data to
be supplied, which the Option prevDay parameter captures. -/
def normalize (current : Option ℚ) (today : List ℚ) (hour : ℕ)
    (prevDay : Option (List ℚ)) : Option ℚ × Provenance × Option ℕ :=
  match current with
  | some c => (some c, Provenance.live, none)
  | none =>
    match today with
    | [] => (none, Provenance.unavailable, none)
    | _ :: _ =>
      match scanBackFrom today hour with
      | some (v, h) => (some v, Provenance.imputed, some h)
      | none =>
        match prevDay with
        | some prev =>
          match scanEvening prev with
          | some (v, h) => (some v, Provenance.imputed, some h)
          | none => (none, Provenance.unavailable, none)
        | none => (none, Provenance.unavailable, none)

/-- Normalizer behaviour exactly as claim C2 words it (refinement comparator,
written from the claim, not from the source): the backward scan and the
previous-day evening scan are attempted unconditionally, with no requirement
that the hourly series be non-empty. -/
def normalizeSpecC2 (current : Option ℚ) (today : List ℚ) (hour : ℕ)
    (prevDay : Option (List ℚ)) : Option ℚ × Provenance × Option ℕ :=
  match current with
  | some c => (some c, Provenance.live, none)
  | none =>
    match scanBackFrom today hour with
    | some (v, h) => (some v, Provenance.imputed, some h)
    | none =>
      match prevDay with
      | some prev =>
        match scanEvening prev with
        | some (v, h) => (some v, Provenance.imputed, some h)
        | none => (none, Provenance.unavailable, none)
      | none => (none, Provenance.unavailable, none)

lemma normalize_none_cons (a : ℚ) (t : List ℚ) (h : ℕ) (p : Option (List ℚ)) :
    normalize none (a :: t) h p =
      match scanBackFrom (a :: t) h with
      | some (v, hh) => (some v, Provenance.imputed, some hh)
      | none =>
        match p with
        | some prev =>
          match scanEvening prev with
          | some (v, hh) => (some v, Provenance.imputed, some hh)
          | none => (none, Provenance.unavailable, none)
        | none => (none, Provenance.unavailable, none) := rfl

lemma getD_nonpos {l : List ℚ} (hl : ∀ x ∈ l, x ≤ 0) (i : ℕ) : l.getD i 0 ≤ 0 := by
  rcases lt_or_le i l.length with hi | hi
  · rw [List.getD_eq_getElem _ _ hi]
    exact hl _ (l.getElem_mem hi)
  · rw [List.getD_eq_default _ _ hi]

lemma scanBackFrom_eq_some {l : List ℚ} {h : ℕ} {v : ℚ} {i : ℕ}
    (he : scanBackFrom l h = some (v, i)) : 0 < v ∧ l.getD i 0 = v ∧ i ≤ h := by
  induction h with
  | zero =>
    unfold scanBackFrom at he
    split_ifs at he with h0
    · simp only [Option.some.injEq, Prod.mk.injEq] at he
      obtain ⟨rfl, rfl⟩ := he
      exact ⟨h0, rfl, le_refl 0⟩
  | succ n ihn =>
    unfold scanBackFrom at he
    split_ifs at he with h0
    · simp only [Option.some.injEq, Prod.mk.injEq] at he
      obtain ⟨rfl, rfl⟩ := he
      exact ⟨h0, rfl, le_refl _⟩
    · obtain ⟨h1, h2, h3⟩ := ihn he
      exact ⟨h1, h2, h3.trans (Nat.le_succ n)⟩

lemma scanBackFrom_none_of_nonpos {l : List ℚ} (hl : ∀ x ∈ l, x ≤ 0) (h : ℕ) :
    scanBackFrom l h = none := by
  induction h with
  | zero =>
    unfold scanBackFrom
    rw [if_neg (not_lt.mpr (getD_nonpos hl 0))]
  | succ n ihn =>
    unfold scanBackFrom
    rw [if_neg (not_lt.mpr (getD_nonpos hl (n + 1)))]
    exact ihn

lemma scanEvening_eq_some {l : List ℚ} {v : ℚ} {i : ℕ}
    (he : scanEvening l = some (v, i)) :
    0 < v ∧ l.getD i 0 = v ∧ 18 ≤ i ∧ i ≤ 23 := by
  unfold scanEvening at he
  split_ifs at he with h1 h2 h3 h4 h5 h6 <;>
    simp only [Option.some.injEq, Prod.mk.injEq, reduceCtorEq] at he <;>
    obtain ⟨rfl, rfl⟩ := he <;>
    exact ⟨by assumption, rfl, by norm_num, by norm_num⟩

lemma scanEvening_none_of_nonpos {l : List ℚ}
    (hl : ∀ i, 18 ≤ i → i ≤ 23 → l.getD i 0 ≤ 0) : scanEvening l = none := by
  unfold scanEvening
  rw [if_neg (not_lt.mpr (hl 23 (by norm_num) (by norm_num))),
    if_neg (not_lt.mpr (hl 22 (by norm_num) (by norm_num))),
    if_neg (not_lt.mpr (hl 21 (by norm_num) (by norm_num))),
    if_neg (not_lt.mpr (hl 20 (by norm_num) (by norm_num))),
    if_neg (not_lt.mpr (hl 19 (by norm_num) (by norm_num))),
    if_neg (not_lt.mpr (hl 18 (by norm_num) (by norm_num)))]

/-- Claim C2 (counterexample).  With an empty hourly series, a present
previous-day evening series holding a strictly positive value at hour 18, and
no live current value, the source returns (None, unavailable, None) because
the fallback block is guarded by `if current_pop is None and today_data:`,
whereas the claim's description imputes 40 from hour 18. -/
theorem normalize_empty_series_counterexample :
    normalize none [] 5
        (some [0, 0, 0, 0, 0, 0, 0, 0, 0, 0, 0, 0, 0, 0, 0, 0, 0, 0, 40]) =
      (none, Provenance.unavailable, none) ∧
    normalizeSpecC2 none [] 5
        (some [0, 0, 0, 0, 0, 0, 0, 0, 0, 0, 0, 0, 0, 0, 0, 0, 0, 0, 40]) =
      (some 40, Provenance.imputed, some 18) ∧
    normalize none [] 5
        (some [0, 0, 0, 0, 0, 0, 0, 0, 0, 0, 0, 0, 0, 0, 0, 0, 0, 0, 40]) ≠
      normalizeSpecC2 none [] 5
        (some [0, 0, 0, 0, 0, 0, 0, 0, 0, 0, 0, 0, 0, 0, 0, 0, 0, 0, 40]) := by
  refine ⟨by decide, by decide, by decide⟩

/-- Claim C2 (amended).  The normalizer behaves exactly as the claim describes
(live pass-through, backward scan from current_hour to 0, then the hours 23-18
of the previous-day evening data) except that when the current value is absent
and the hourly series is empty the whole fallback search, including the
previous-day evening scan, is skipped and the result is
(None, unavailable, None). -/
theorem normalize_amended_C2 :
    ∀ (c : Option ℚ) (t : List ℚ) (h : ℕ) (p : Option (List ℚ)),
      normalize c t h p =
        if c = none ∧ t = [] then (none, Provenance.unavailable, none)
        else normalizeSpecC2 c t h p := by
  intro c t h p
  cases c with
  | some v => simp [normalize, normalizeSpecC2]
  | none =>
    cases t with
    | nil => simp [normalize]
    | cons a t => simp [normalize, normalizeSpecC2]

/-- Claim C5.  If the normalizer reports provenance imputed then the returned
value is strictly positive and is an actual entry of the supplied hourly
series (at the reported hour) or of the previous-day evening window (reported
hour between 18 and 23); and when the current value is absent and no strictly
positive entry exists in either series the result is
(None, unavailable, None), so an imputed 0 is never produced. -/
theorem normalize_imputed_invariant :
    (∀ (c : Option ℚ) (t : List ℚ) (h : ℕ) (p : Option (List ℚ)) (v : ℚ) (ih : ℕ),
       normalize c t h p = (some v, Provenance.imputed, some ih) →
       0 < v ∧ (t.getD ih 0 = v ∨
         ∃ prev, p = some prev ∧ 18 ≤ ih ∧ ih ≤ 23 ∧ prev.getD ih 0 = v)) ∧
    (∀ (t : List ℚ) (h : ℕ) (p : Option (List ℚ)),
       (∀ x ∈ t, x ≤ 0) →
       (∀ prev, p = some prev → ∀ i, 18 ≤ i → i ≤ 23 → prev.getD i 0 ≤ 0) →
       normalize none t h p = (none, Provenance.unavailable, none)) := by
  constructor
  · intro c t h p v ih he
    cases c with
    | some x => simp [normalize] at he
    | none =>
      cases t with
      | nil => simp [normalize] at he
      | cons a t =>
        rw [normalize_none_cons] at he
        rcases hsb : scanBackFrom (a :: t) h with _ | ⟨v0, i0⟩
        · rw [hsb] at he
          dsimp only at he
          cases p with
          | none => simp at he
          | some prev =>
            dsimp only at he
            rcases hse : scanEvening prev with _ | ⟨v1, i1⟩
            · rw [hse] at he; simp at he
            · rw [hse] at he
              simp only [Option.some.injEq, Prod.mk.injEq] at he
              obtain ⟨rfl, -, rfl⟩ := he
              obtain ⟨hpos, hent, h18, h23⟩ := scanEvening_eq_some hse
              exact ⟨hpos, Or.inr ⟨prev, rfl, h18, h23, hent⟩⟩
        · rw [hsb] at he
          simp only [Option.some.injEq, Prod.mk.injEq] at he
          obtain ⟨rfl, -, rfl⟩ := he
          obtain ⟨hpos, hent, -⟩ := scanBackFrom_eq_some hsb
          exact ⟨hpos, Or.inl hent⟩
  · intro t h p h1 h2
    cases t with
    | nil => rfl
    | cons a t =>
      have hsb := scanBackFrom_none_of_nonpos h1 h
      cases p with
      | none => simp [normalize, hsb]
      | some prev =>
        have hse := scanEvening_none_of_nonpos (h2 prev rfl)
        simp [normalize, hsb, hse]

/-- Witness for normalize_imputed_invariant: imputing from [0, 5] at hour 3
returns the positive entry 5 found at hour 1, and an all-zero series with no
previous-day data yields (None, unavailable, None). -/
theorem normalize_imputed_invariant_witness :
    (0 < (5 : ℚ) ∧ (([0, 5] : List ℚ).getD 1 0 = 5 ∨
       ∃ prev, (none : Option (List ℚ)) = some prev ∧ 18 ≤ 1 ∧ 1 ≤ 23 ∧
         prev.getD 1 0 = 5)) ∧
    normalize none [0, 0] 3 none = (none, Provenance.unavailable, none) :=
  ⟨normalize_imputed_invariant.1 none [0, 5] 3 none 5 1 (by decide),
   normalize_imputed_invariant.2 [0, 0] 3 none (by decide)
     (fun prev hp => nomatch hp)⟩

/-- Indicator polarity as configured in test_scraper.py (indicator_type
field): pizza_spike reads deviations directly, inverse negates them.  The
spec calls these polarities normal and inverse. -/
inductive IndicatorType where
  | pizza_spike
  | inverse
deriving DecidableEq

/-- Signal categories of robust_scraper_poc.py fetch_sensor_data lines 87-103.
The constructors denote, in order, the strings "SPIKE DETECTED (+x%)",
"ELEVATED (+x%)", "LOW ACTION (x%)", "NORMAL" and "NO LIVE SIGNAL"; the
numeric percentage is carried separately, the string formatting being
presentational. -/
inductive RSignal where
  | spike
  | elevated
  | low
  | normal
  | noLive
deriving DecidableEq

/-- Per-sensor scorer of robust_scraper_poc.py fetch_sensor_data lines 87-103:
the pair (signal, percent_change).  Both start as NORMAL and 0; they are only
set when a live current and a strictly positive historical baseline exist, and
a missing current yields NO LIVE SIGNAL.  The function has no polarity
parameter: the source never consults the target role here. -/
def fetch_sensor_signal (current : Option ℚ) (historical : ℚ) : RSignal × ℚ :=
  match current with
  | some c =>
    if 0 < historical then
      let change := (c - historical) / historical * 100
      if 50 < change then (RSignal.spike, change)
      else if 25 < change then (RSignal.elevated, change)
      else if change < -25 then (RSignal.low, change)
      else (RSignal.normal, change)
    else (RSignal.normal, 0)
  | none => (RSignal.noLive, 0)

/-- Polarity-adjusted anomaly percentage of test_scraper.py generate_report
lines 294-298: pct = ((current - usual) / usual) * 100, negated for inverse
indicators before entering the composite. -/
def tsAdjustedPct (current usual : ℚ) (it : IndicatorType) : ℚ :=
  let pct := (current - usual) / usual * 100
  if it = IndicatorType.inverse then -pct else pct

/-- Classification labels of the spec §4.2 AnomalyResult. -/
inductive SpecLabel where
  | spike
  | elevated
  | low
  | normal
  | closed
deriving DecidableEq

/-- Scorer exactly as claim C3 words it (refinement comparator, written from
the claim, not from the source): the percentage is polarity-adjusted and the
label is classified on the possibly negated percentage. -/
def scoreClaimC3 (current baseline : Option ℚ) (pol : IndicatorType) :
    Option ℚ × SpecLabel :=
  match current with
  | none => (none, SpecLabel.closed)
  | some c =>
    match baseline with
    | none => (none, SpecLabel.normal)
    | some b =>
      if b = 0 then (none, SpecLabel.normal)
      else
        let pct := (c - b) / b * 100
        let adj := if pol = IndicatorType.inverse then -pct else pct
        (some adj,
          if 50 < adj then SpecLabel.spike
          else if 25 < adj then SpecLabel.elevated
          else if adj < -25 then SpecLabel.low
          else SpecLabel.normal)

/-- Claim C3 (counterexample).  For the inverse-polarity reading
current = 40, baseline = 80 the claim requires percentage +50.0 and a label
classified on +50; the repository's per-sensor scorer
(robust_scraper_poc.py fetch_sensor_data, which never negates — the only
polarity negation in the repository happens inside test_scraper.py's
composite aggregation) yields percent_change = -50.0 and the LOW signal. -/
theorem scorer_polarity_counterexample :
    fetch_sensor_signal (some 40) 80 = (RSignal.low, -50) ∧
    scoreClaimC3 (some 40) (some 80) IndicatorType.inverse =
      (some 50, SpecLabel.elevated) ∧
    (fetch_sensor_signal (some 40) 80).2 ≠
      ((scoreClaimC3 (some 40) (some 80) IndicatorType.inverse).1.getD 0) := by
  have h1 : fetch_sensor_signal (some 40) 80 = (RSignal.low, -50) := by
    unfold fetch_sensor_signal
    norm_num
  have h2 : scoreClaimC3 (some 40) (some 80) IndicatorType.inverse =
      (some 50, SpecLabel.elevated) := by
    unfold scoreClaimC3
    norm_num
  refine ⟨h1, h2, ?_⟩
  rw [h1, h2]
  norm_num

/-- Claim C3 (amended).  For a present current and a strictly positive
baseline, the per-sensor scorer computes pct = (current - baseline) /
baseline * 100 with no polarity adjustment, and classifies that raw
percentage: spike above 50, elevated above 25 and at most 50, low below -25,
normal otherwise; the polarity negation the claim describes is applied to the
percentage only in test_scraper.py's aggregation stage (tsAdjustedPct).  In
particular score(120, 80).pct = 50.0 and score(40, 80).pct = -50.0 for either
polarity, and the aggregation-stage adjusted percentage of (40, 80, inverse)
is +50.0 (shown in the witness). -/
theorem scorer_amended_C3 : ∀ (c b : ℚ), 0 < b →
    (fetch_sensor_signal (some c) b).2 = (c - b) / b * 100 ∧
    ((fetch_sensor_signal (some c) b).1 = RSignal.spike ↔
       50 < (c - b) / b * 100) ∧
    ((fetch_sensor_signal (some c) b).1 = RSignal.elevated ↔
       25 < (c - b) / b * 100 ∧ (c - b) / b * 100 ≤ 50) ∧
    ((fetch_sensor_signal (some c) b).1 = RSignal.low ↔
       (c - b) / b * 100 < -25) ∧
    ((fetch_sensor_signal (some c) b).1 = RSignal.normal ↔
       -25 ≤ (c - b) / b * 100 ∧ (c - b) / b * 100 ≤ 25) ∧
    tsAdjustedPct c b IndicatorType.pizza_spike = (c - b) / b * 100 ∧
    tsAdjustedPct c b IndicatorType.inverse = -((c - b) / b * 100) := by
  intro c b hb
  have hfe : fetch_sensor_signal (some c) b =
      (if 0 < b then
        (if 50 < (c - b) / b * 100 then (RSignal.spike, (c - b) / b * 100)
         else if 25 < (c - b) / b * 100 then (RSignal.elevated, (c - b) / b * 100)
         else if (c - b) / b * 100 < -25 then (RSignal.low, (c - b) / b * 100)
         else (RSignal.normal, (c - b) / b * 100))
       else (RSignal.normal, 0)) := rfl
  have hts1 : tsAdjustedPct c b IndicatorType.pizza_spike = (c - b) / b * 100 := by
    simp [tsAdjustedPct]
  have hts2 : tsAdjustedPct c b IndicatorType.inverse = -((c - b) / b * 100) := by
    simp [tsAdjustedPct]
  rw [hfe, if_pos hb]
  set p := (c - b) / b * 100 with hp
  split_ifs with h1 h2 h3 <;>
    refine ⟨rfl, ?_, ?_, ?_, ?_, hts1, hts2⟩ <;>
    constructor <;>
    intro hx <;>
    first
      | rfl
      | exact h1
      | exact h3
      | exact ⟨h2, not_lt.mp h1⟩
      | exact ⟨not_lt.mp h3, not_lt.mp h2⟩
      | exact absurd hx (by decide)
      | (exfalso; rcases hx with ⟨hx1, hx2⟩; linarith)
      | (exfalso; linarith)

/-- Witness for scorer_amended_C3 at the spec's example readings. -/
theorem scorer_amended_C3_witness :
    (0 : ℚ) < 80 ∧
    (fetch_sensor_signal (some 120) 80).2 = 50 ∧
    (fetch_sensor_signal (some 40) 80).2 = -50 ∧
    tsAdjustedPct 40 80 IndicatorType.inverse = 50 := by
  have h1 := scorer_amended_C3 120 80 (by norm_num)
  have h2 := scorer_amended_C3 40 80 (by norm_num)
  refine ⟨by norm_num, ?_, ?_, ?_⟩
  · rw [h1.1]; norm_num
  · rw [h2.1]; norm_num
  · rw [h2.2.2.2.2.2.2]; norm_num

/-- CSS classes returned by getAnomalyClass in the dashboard template
(dashboard.py lines 979-987): anomaly-closed, anomaly-normal, anomaly-spike,
anomaly-high, anomaly-low. -/
inductive Css where
  | closed
  | normal
  | spike
  | high
  | low
deriving DecidableEq

/-- getAnomalyClass from the dashboard template (dashboard.py lines 979-987):
missing current gives anomaly-closed; missing or zero usual gives
anomaly-normal; otherwise the raw percentage is classified. -/
def getAnomalyClass (current usual : Option ℚ) : Css :=
  match current with
  | none => Css.closed
  | some c =>
    match usual with
    | none => Css.normal
    | some u =>
      if u = 0 then Css.normal
      else
        let pct := (c - u) / u * 100
        if 50 < pct then Css.spike
        else if 25 < pct then Css.high
        else if pct < -25 then Css.low
        else Css.normal

/-- Badge text shapes of getAnomalyText in the dashboard template
(dashboard.py lines 989-994): the string CLOSED, the current value displayed
alone (no percentage), or a percentage display.  The toFixed(0) display
rounding is presentational and not modelled. -/
inductive AText where
  | closed
  | live (current : ℚ)
  | pct (p : ℚ)
deriving DecidableEq

/-- getAnomalyText from the dashboard template (dashboard.py lines 989-994). -/
def getAnomalyText (current usual : Option ℚ) : AText :=
  match current with
  | none => AText.closed
  | some c =>
    match usual with
    | none => AText.live c
    | some u =>
      if u = 0 then AText.live c
      else AText.pct ((c - u) / u * 100)

/-- Trend bands of test_scraper.py calculate_trend lines 166-177, in source
order: SPIKE, ELEVATED, Above Normal, Very Low, Below Normal, Normal. -/
inductive TrendBand where
  | spike
  | elevated
  | aboveNormal
  | veryLow
  | belowNormal
  | normalRange
deriving DecidableEq

/-- Result shapes of test_scraper.py calculate_trend lines 155-179: the
string "CLOSED/NO DATA", the string "Live: {current} (no baseline)" (which
reports the current value and no percentage), or a percentage with its band. -/
inductive Trend where
  | closedNoData
  | noBaseline (current : ℚ)
  | pctBand (pct : ℚ) (band : TrendBand)
deriving DecidableEq

/-- calculate_trend from test_scraper.py lines 155-179. -/
def calculate_trend (current usual : Option ℚ) : Trend :=
  match current with
  | none => Trend.closedNoData
  | some c =>
    match usual with
    | none => Trend.noBaseline c
    | some u =>
      if u = 0 then Trend.noBaseline c
      else
        let pct := (c - u) / u * 100
        if 50 < pct then Trend.pctBand pct TrendBand.spike
        else if 25 < pct then Trend.pctBand pct TrendBand.elevated
        else if 10 < pct then Trend.pctBand pct TrendBand.aboveNormal
        else if pct < -25 then Trend.pctBand pct TrendBand.veryLow
        else if pct < -10 then Trend.pctBand pct TrendBand.belowNormal
        else Trend.pctBand pct TrendBand.normalRange

/-- Claim C4.  A missing current value yields the closed label with no
percentage (in both the dashboard badge functions and calculate_trend); a
present current with a missing or zero baseline yields the normal CSS class,
a display that still reports the current value, and a no-baseline trend —
never the closed label — and in each of these cases the result carries no
percentage at all, so it is distinguishable from a true 0% deviation. -/
theorem scorer_missing_inputs_C4 :
    (∀ u, getAnomalyClass none u = Css.closed) ∧
    (∀ u, getAnomalyText none u = AText.closed) ∧
    (∀ c : ℚ, getAnomalyClass (some c) none = Css.normal ∧
       getAnomalyClass (some c) (some 0) = Css.normal) ∧
    (∀ c : ℚ, getAnomalyText (some c) none = AText.live c ∧
       getAnomalyText (some c) (some 0) = AText.live c) ∧
    (∀ u, calculate_trend none u = Trend.closedNoData) ∧
    (∀ c : ℚ, calculate_trend (some c) none = Trend.noBaseline c ∧
       calculate_trend (some c) (some 0) = Trend.noBaseline c) ∧
    (∀ (c : ℚ) (band : TrendBand),
       Trend.noBaseline c ≠ Trend.pctBand 0 band ∧
       Trend.closedNoData ≠ Trend.pctBand 0 band ∧
       (∀ p : ℚ, AText.closed ≠ AText.pct p)) := by
  refine ⟨fun u => rfl, fun u => rfl,
    fun c => ⟨rfl, by simp [getAnomalyClass]⟩,
    fun c => ⟨rfl, by simp [getAnomalyText]⟩,
    fun u => rfl,
    fun c => ⟨rfl, by simp [calculate_trend]⟩,
    fun c band => ⟨by simp, by simp, fun p => by simp⟩⟩

/-- Sensor rows as consumed by the composite section of test_scraper.py
generate_report (fields current, usual, indicator_type of sensor_results). -/
structure TSensor where
  current : Option ℚ
  usual : Option ℚ
  indicator_type : IndicatorType
deriving DecidableEq

/-- Composite of test_scraper.py generate_report lines 287-303: active
sensors are those with a present current; among them, sensors whose usual is
present and strictly positive contribute their polarity-adjusted percentage
(tsAdjustedPct, negated for inverse indicators); the composite is the mean of
the contributions, or absent when there are none.  Python's
`s.get('usual') and s['usual'] > 0` is falsy for None and for 0 and otherwise
tests positivity, i.e. it holds exactly when usual is present and 0 < usual. -/
def generate_report_composite (rs : List TSensor) : Option ℚ :=
  let active := rs.filter (fun s => s.current.isSome)
  let scores := active.filterMap (fun s =>
    match s.current, s.usual with
    | some c, some u =>
      if 0 < u then some (tsAdjustedPct c u s.indicator_type) else none
    | _, _ => none)
  if scores.isEmpty then none else some (scores.sum / scores.length)

/-- Composite of dashboard.py get_data lines 1174-1181: sensors with a
present current and a truthy, strictly positive usual are averaged on their
raw percentage ((current - usual) / usual * 100).  The sensor role is not
consulted: no polarity adjustment takes place here. -/
def get_data_composite (rs : List (Option ℚ × Option ℚ)) : Option ℚ :=
  let active := rs.filter (fun s =>
    s.1.isSome && (match s.2 with | some u => decide (0 < u) | none => false))
  if active.isEmpty then none
  else some ((active.map (fun s =>
    (s.1.getD 0 - s.2.getD 0) / s.2.getD 0 * 100)).sum / active.length)

/-- Banner states of updateAlertBanner in the dashboard template
(dashboard.py lines 1027-1051): SENSORS OFFLINE for a null score, then
RED ALERT (critical) above 50, ELEVATED above 25, NORMAL otherwise. -/
inductive Banner where
  | offline
  | critical
  | elevated
  | normal
deriving DecidableEq

/-- updateAlertBanner from the dashboard template (dashboard.py 1027-1051). -/
def updateAlertBanner (score : Option ℚ) : Banner :=
  match score with
  | none => Banner.offline
  | some s =>
    if 50 < s then Banner.critical
    else if 25 < s then Banner.elevated
    else Banner.normal

/-- Claim C1 (code bug evidence).  On the bug-revealing input — a single
inverse-role sensor reading current 40 against baseline 80 — the dashboard
composite, which never consults the role, is -50.0, while test_scraper.py's
composite, which performs the polarity negation that the claim and spec §4.3
describe, gives +50.0 on the same reading.  On the claim's concrete example
[(150, 100, normal), (None, 50, normal)] both composites give 50.0 (the
second sensor is excluded) and the banner tier is elevated. -/
theorem composite_polarity_bug :
    get_data_composite [(some 40, some 80)] = some (-50) ∧
    generate_report_composite [⟨some 40, some 80, IndicatorType.inverse⟩] =
      some 50 ∧
    get_data_composite [(some 150, some 100), (none, some 50)] = some 50 ∧
    generate_report_composite
      [⟨some 150, some 100, IndicatorType.pizza_spike⟩,
       ⟨none, some 50, IndicatorType.pizza_spike⟩] = some 50 ∧
    updateAlertBanner (some 50) = Banner.elevated := by
  refine ⟨?_, ?_, ?_, ?_, ?_⟩ <;>
    norm_num [get_data_composite, generate_report_composite, tsAdjustedPct,
      updateAlertBanner, List.filter, List.filterMap]
  all_goals decide

/-- Claim C6.  The dashboard composite is absent and the banner tier is
offline exactly when no sensor has both a present current and a strictly
positive baseline; and when the composite is present the tier is critical
above 50, elevated above 25 and at most 50, and normal at or below 25. -/
theorem composite_offline_and_tiers_C6 :
    ∀ rs : List (Option ℚ × Option ℚ),
      ((get_data_composite rs = none ∧
          updateAlertBanner (get_data_composite rs) = Banner.offline) ↔
        ∀ c u : ℚ, (some c, some u) ∈ rs → u ≤ 0) ∧
      (∀ q : ℚ, get_data_composite rs = some q →
        ((updateAlertBanner (get_data_composite rs) = Banner.critical ↔
            50 < q) ∧
         (updateAlertBanner (get_data_composite rs) = Banner.elevated ↔
            25 < q ∧ q ≤ 50) ∧
         (updateAlertBanner (get_data_composite rs) = Banner.normal ↔
            q ≤ 25))) := by
  intro rs
  have hcomp : get_data_composite rs = none ↔
      ∀ c u : ℚ, (some c, some u) ∈ rs → u ≤ 0 := by
    unfold get_data_composite
    rcases hf : rs.filter (fun s =>
        s.1.isSome &&
          (match s.2 with | some u => decide (0 < u) | none => false)) with
      _ | ⟨a, t⟩
    · simp only [hf, List.isEmpty_nil, if_true]
      constructor
      · intro _ c u hm
        by_contra hu
        push_neg at hu
        have hmf : (some c, some u) ∈ rs.filter (fun s =>
            s.1.isSome &&
              (match s.2 with | some u => decide (0 < u) | none => false)) :=
          List.mem_filter.mpr ⟨hm, by simp [hu]⟩
        rw [hf] at hmf
        exact absurd hmf (List.not_mem_nil _)
      · intro _; trivial
    · simp only [hf, List.isEmpty_cons, if_false]
      constructor
      · intro hx; exact absurd hx (by simp)
      · intro hall
        exfalso
        have ha : a ∈ rs.filter (fun s =>
            s.1.isSome &&
              (match s.2 with | some u => decide (0 < u) | none => false)) := by
          rw [hf]; exact List.mem_cons_self a t
        obtain ⟨hmem, hp⟩ := List.mem_filter.mp ha
        rcases a with ⟨oc, ou⟩
        cases oc with
        | none => simp at hp
        | some c =>
          cases ou with
          | none => simp at hp
          | some u =>
            have hu : 0 < u := by simpa using hp
            exact absurd hu (not_lt.mpr (hall c u hmem))
  refine ⟨?_, ?_⟩
  · constructor
    · rintro ⟨h1, -⟩; exact hcomp.mp h1
    · intro h
      have hn := hcomp.mpr h
      exact ⟨hn, by rw [hn]; rfl⟩
  · intro q hq
    rw [hq]
    simp only [updateAlertBanner]
    split_ifs with h1 h2
    · refine ⟨by simp [h1], ?_, ?_⟩
      · constructor
        · intro hx; exact absurd hx (by decide)
        · rintro ⟨-, hle⟩; linarith
      · constructor
        · intro hx; exact absurd hx (by decide)
        · intro hle; linarith
    · refine ⟨?_, by simp [h2, not_lt.mp h1], ?_⟩
      · constructor
        · intro hx; exact absurd hx (by decide)
        · intro h50; exact absurd h50 h1
      · constructor
        · intro hx; exact absurd hx (by decide)
        · intro hle; linarith
    · refine ⟨?_, ?_, by simp [not_lt.mp h2]⟩
      · constructor
        · intro hx; exact absurd hx (by decide)
        · intro h50; exact absurd h50 h1
      · constructor
        · intro hx; exact absurd hx (by decide)
        · rintro ⟨h25, -⟩; exact absurd h25 h2

/-- Witness for composite_offline_and_tiers_C6: a roster with a single closed
sensor is offline, and the spec's example roster scores 50 and is elevated. -/
theorem composite_offline_and_tiers_C6_witness :
    get_data_composite [(none, some 80)] = none ∧
    updateAlertBanner (get_data_composite [(none, some 80)]) =
      Banner.offline ∧
    updateAlertBanner
        (get_data_composite [(some 150, some 100), (none, some 50)]) =
      Banner.elevated := by
  have hall : ∀ c u : ℚ,
      ((some c : Option ℚ), (some u : Option ℚ)) ∈
        [((none : Option ℚ), (some 80 : Option ℚ))] → u ≤ 0 := by
    intro c u hm
    simp at hm
  have h1 := (composite_offline_and_tiers_C6 [(none, some 80)]).1.mpr hall
  have hcomp : get_data_composite [(some 150, some 100), (none, some 50)] =
      some 50 := by
    norm_num [get_data_composite, List.filter]
  have h2 := ((composite_offline_and_tiers_C6
      [(some 150, some 100), (none, some 50)]).2 50 hcomp).2.1.mpr
    (by norm_num)
  exact ⟨h1.1, h1.2, h2⟩

/-- Mean of the first components of a pair list (np.corrcoef centers each
input array on its mean; for the empty list the rational division by zero
yields 0, matching the degenerate nan case which corrSq maps to none). -/
def meanFst (ps : List (ℚ × ℚ)) : ℚ := (ps.map Prod.fst).sum / ps.length

/-- Mean of the second components of a pair list. -/
def meanSnd (ps : List (ℚ × ℚ)) : ℚ := (ps.map Prod.snd).sum / ps.length

/-- Centered pairs (x - mean x, y - mean y) entering np.corrcoef's
covariance sums. -/
def centeredPairs (ps : List (ℚ × ℚ)) : List (ℚ × ℚ) :=
  ps.map (fun p => (p.1 - meanFst ps, p.2 - meanSnd ps))

/-- Centered cross sum: the covariance numerator of np.corrcoef. -/
def sxy (ps : List (ℚ × ℚ)) : ℚ :=
  ((centeredPairs ps).map (fun p => p.1 * p.2)).sum

/-- Centered square sum of the first series. -/
def sxx (ps : List (ℚ × ℚ)) : ℚ :=
  ((centeredPairs ps).map (fun p => p.1 ^ 2)).sum

/-- Centered square sum of the second series. -/
def syy (ps : List (ℚ × ℚ)) : ℚ :=
  ((centeredPairs ps).map (fun p => p.2 ^ 2)).sum

/-- Square of np.corrcoef's off-diagonal entry r = sxy / sqrt(sxx * syy)
(dashboard.py get_data line 1189).  The coefficient itself is irrational in
general; its square sxy^2 / (sxx * syy) is rational and determines |r|.  The
denominator degenerating to zero is exactly numpy's nan outcome (zero
variance, short or empty input), embedded as none. -/
def corrSq (ps : List (ℚ × ℚ)) : Option ℚ :=
  if sxx ps = 0 ∨ syy ps = 0 then none
  else some (sxy ps ^ 2 / (sxx ps * syy ps))

/-- Spec §4.4 alignment: signal[0 : n-lag] paired with proxy[lag : n].
Modelled from the spec: the repository's correlation analyzer (dashboard.py
get_data lines 1186-1189) implements only the lag = 1 instance of this
contract; dashboard_aligned_pairs below is that instance, and the C7 theorem
proves the two agree at lag 1. -/
def alignedPairs (signal proxy : List ℚ) (lag : ℕ) : List (ℚ × ℚ) :=
  (signal.take (signal.length - lag)).zip (proxy.drop lag)

/-- Alignment of dashboard.py get_data lines 1187-1188:
pizza_arr = pizza_index[:-1] and vix_arr = vix[1:]. -/
def dashboard_aligned_pairs (pizza vix : List ℚ) : List (ℚ × ℚ) :=
  pizza.dropLast.zip (vix.drop 1)

/-- Spike counting of dashboard.py get_data line 1192:
sum(1 for v in pizza_index if v > 30), over the full unlagged series. -/
def spike_count (xs : List ℚ) : ℕ :=
  (xs.map (fun v => if 30 < v then 1 else 0)).sum

lemma list_map_sum_eq (f : ℚ × ℚ → ℚ) (l : List (ℚ × ℚ)) :
    (l.map f).sum = ∑ i in Finset.range l.length, f (l.getD i (0, 0)) := by
  induction l with
  | nil => simp
  | cons a t ih =>
    simp only [List.map_cons, List.sum_cons, List.length_cons]
    rw [Finset.sum_range_succ']
    simp only [List.getD_cons_succ, List.getD_cons_zero]
    rw [ih]
    ring

lemma pairs_cauchy_schwarz (l : List (ℚ × ℚ)) :
    ((l.map (fun p => p.1 * p.2)).sum) ^ 2 ≤
      ((l.map (fun p => p.1 ^ 2)).sum) * ((l.map (fun p => p.2 ^ 2)).sum) := by
  rw [list_map_sum_eq, list_map_sum_eq, list_map_sum_eq]
  simpa using Finset.sum_mul_sq_le_sq_mul_sq (Finset.range l.length)
    (fun i => (l.getD i (0, 0)).1) (fun i => (l.getD i (0, 0)).2)

lemma sq_map_sum_nonneg (g : ℚ × ℚ → ℚ) (l : List (ℚ × ℚ)) :
    0 ≤ (l.map (fun p => g p ^ 2)).sum := by
  refine List.sum_nonneg ?_
  intro x hx
  obtain ⟨p, -, rfl⟩ := List.mem_map.mp hx
  exact sq_nonneg _

lemma sxx_nonneg (ps : List (ℚ × ℚ)) : 0 ≤ sxx ps :=
  sq_map_sum_nonneg (fun p => p.1) (centeredPairs ps)

lemma syy_nonneg (ps : List (ℚ × ℚ)) : 0 ≤ syy ps :=
  sq_map_sum_nonneg (fun p => p.2) (centeredPairs ps)

lemma corrSq_mem_unit {ps : List (ℚ × ℚ)} {q : ℚ} (h : corrSq ps = some q) :
    0 ≤ q ∧ q ≤ 1 := by
  unfold corrSq at h
  split_ifs at h with hz
  push_neg at hz
  obtain ⟨hx, hy⟩ := hz
  simp only [Option.some.injEq] at h
  subst h
  have hxx : 0 < sxx ps := lt_of_le_of_ne (sxx_nonneg ps) (Ne.symm hx)
  have hyy : 0 < syy ps := lt_of_le_of_ne (syy_nonneg ps) (Ne.symm hy)
  constructor
  · exact div_nonneg (sq_nonneg _) (mul_nonneg hxx.le hyy.le)
  · rw [div_le_one (mul_pos hxx hyy)]
    exact pairs_cauchy_schwarz (centeredPairs ps)

lemma sxx_of_short {ps : List (ℚ × ℚ)} (h : ps.length ≤ 1) : sxx ps = 0 := by
  rcases ps with _ | ⟨p, _ | ⟨p2, t⟩⟩
  · simp [sxx, centeredPairs]
  · simp [sxx, centeredPairs, meanFst, meanSnd]
  · exfalso
    simp only [List.length_cons] at h
    omega

lemma sxx_replicate (n : ℕ) (a b : ℚ) :
    sxx (List.replicate n (a, b)) = 0 := by
  cases n with
  | zero => simp [sxx, centeredPairs]
  | succ m =>
    have hm : meanFst (List.replicate (m + 1) (a, b)) = a := by
      simp only [meanFst, List.map_replicate, List.sum_replicate,
        List.length_replicate, nsmul_eq_mul]
      exact mul_div_cancel_left₀ a (by exact_mod_cast Nat.succ_ne_zero m)
    simp [sxx, centeredPairs, hm, List.map_replicate, List.sum_replicate]

lemma corrSq_of_short {ps : List (ℚ × ℚ)} (h : ps.length ≤ 1) :
    corrSq ps = none := by
  unfold corrSq
  rw [if_pos (Or.inl (sxx_of_short h))]

lemma spike_count_eq_countP (xs : List ℚ) :
    spike_count xs = xs.countP (fun v => decide (30 < v)) := by
  induction xs with
  | nil => rfl
  | cons a t ih =>
    simp only [spike_count, List.map_cons, List.sum_cons, List.countP_cons]
    rw [show ((t.map fun v => if 30 < v then 1 else 0).sum) = spike_count t
      from rfl, ih]
    by_cases h : 30 < a
    · simp [h, Nat.add_comm]
    · simp [h]

lemma alignedPairs_length (signal proxy : List ℚ) (lag : ℕ)
    (h : proxy.length = signal.length) :
    (alignedPairs signal proxy lag).length = signal.length - lag := by
  simp only [alignedPairs, List.length_zip, List.length_take,
    List.length_drop, h]
  omega

lemma alignedPairs_getD (signal proxy : List ℚ) (lag i : ℕ)
    (hi : i < (alignedPairs signal proxy lag).length) :
    (alignedPairs signal proxy lag).getD i (0, 0) =
      (signal.getD i 0, proxy.getD (lag + i) 0) := by
  have hlen := hi
  simp only [alignedPairs, List.length_zip, List.length_take,
    List.length_drop, lt_min_iff] at hlen
  obtain ⟨h1, h2⟩ := hlen
  have his : i < signal.length := by omega
  have hip : lag + i < proxy.length := by omega
  have hit : i < (signal.take (signal.length - lag)).length := by
    simp only [List.length_take]; omega
  have hid : i < (proxy.drop lag).length := by
    simp only [List.length_drop]; omega
  rw [List.getD_eq_getElem _ _ hi]
  rw [show (alignedPairs signal proxy lag)[i] =
      ((signal.take (signal.length - lag))[i], (proxy.drop lag)[i])
    from List.getElem_zip]
  rw [List.getD_eq_getElem _ _ his, List.getD_eq_getElem _ _ hip]
  congr 1
  · exact List.getElem_take signal
  · exact List.getElem_drop _

/-- Claim C7.  For equal-length series and any lag, the analyzer pairs
signal[i] with proxy[i + lag] over a window of length n - lag (the spec §4.4
alignment); the squared Pearson coefficient of the aligned window, whenever
it is defined, lies in [0, 1] (equivalently the coefficient lies in [-1, 1]);
the lag-1 instance is exactly the dashboard's pizza_index[:-1] / vix[1:]
pairing; and the spike count equals the number of entries of the full,
unlagged signal series strictly exceeding 30. -/
theorem correlation_alignment_and_bound_C7 :
    ∀ (signal proxy : List ℚ) (lag : ℕ), proxy.length = signal.length →
      ((alignedPairs signal proxy lag).length = signal.length - lag ∧
       ∀ i, i < (alignedPairs signal proxy lag).length →
         (alignedPairs signal proxy lag).getD i (0, 0) =
           (signal.getD i 0, proxy.getD (lag + i) 0)) ∧
      (∀ q, corrSq (alignedPairs signal proxy lag) = some q →
        0 ≤ q ∧ q ≤ 1) ∧
      alignedPairs signal proxy 1 = dashboard_aligned_pairs signal proxy ∧
      spike_count signal = signal.countP (fun v => decide (30 < v)) := by
  intro signal proxy lag h
  refine ⟨⟨alignedPairs_length signal proxy lag h,
      fun i hi => alignedPairs_getD signal proxy lag i hi⟩,
    fun q hq => corrSq_mem_unit hq, ?_, spike_count_eq_countP signal⟩
  unfold alignedPairs dashboard_aligned_pairs
  rw [List.dropLast_eq_take]

/-- Witness for correlation_alignment_and_bound_C7 on the concrete series
signal = [0, 10, 40], proxy = [1, 2, 3] at lag 1: the aligned window is
[(0, 2), (10, 3)], whose squared coefficient is defined and equals 1. -/
theorem correlation_alignment_and_bound_C7_witness :
    corrSq (alignedPairs [0, 10, 40] [1, 2, 3] 1) = some 1 ∧
    (0 : ℚ) ≤ 1 ∧ (1 : ℚ) ≤ 1 := by
  have hc : corrSq (alignedPairs [0, 10, 40] [1, 2, 3] 1) = some 1 := by
    norm_num [corrSq, alignedPairs, sxy, sxx, syy, centeredPairs, meanFst,
      meanSnd]
  have h := (correlation_alignment_and_bound_C7 [0, 10, 40] [1, 2, 3] 1
    rfl).2.1 1 hc
  exact ⟨hc, h.1, h.2⟩

/-- Claim C8.  Whenever either aligned sub-series has zero variance the
coefficient is the distinct undefined value none (never 0 and never a fault:
the embedded computation is total); in particular any two identical constant
series give none at every lag, and any signal shorter than lag + 2 gives
none, while the spike count remains computable on the full series. -/
theorem correlation_degenerate_C8 :
    (∀ ps : List (ℚ × ℚ), sxx ps = 0 ∨ syy ps = 0 →
      corrSq ps = none ∧ ∀ q : ℚ, corrSq ps ≠ some q) ∧
    (∀ (c : ℚ) (n lag : ℕ),
      corrSq (alignedPairs (List.replicate n c) (List.replicate n c) lag) =
        none) ∧
    (∀ (signal proxy : List ℚ) (lag : ℕ), signal.length < lag + 2 →
      corrSq (alignedPairs signal proxy lag) = none ∧
      spike_count signal = signal.countP (fun v => decide (30 < v))) := by
  refine ⟨?_, ?_, ?_⟩
  · intro ps hz
    have hn : corrSq ps = none := by unfold corrSq; rw [if_pos hz]
    exact ⟨hn, fun q hq => by rw [hn] at hq; exact Option.noConfusion hq⟩
  · intro c n lag
    unfold corrSq
    refine if_pos (Or.inl ?_)
    have : alignedPairs (List.replicate n c) (List.replicate n c) lag =
        List.replicate (min (min (n - lag) n) (n - lag)) (c, c) := by
      simp [alignedPairs, List.take_replicate, List.drop_replicate,
        List.zip_replicate, List.length_replicate]
    rw [this, sxx_replicate]
  · intro signal proxy lag h
    refine ⟨corrSq_of_short ?_, spike_count_eq_countP signal⟩
    calc (alignedPairs signal proxy lag).length
        ≤ (signal.take (signal.length - lag)).length := by
          simp [alignedPairs, List.length_zip]
      _ ≤ 1 := by simp [List.length_take]; omega

/-- Witness for correlation_degenerate_C8: a concrete zero-variance pair
list, constant series, and a too-short series. -/
theorem correlation_degenerate_C8_witness :
    corrSq [((2 : ℚ), (5 : ℚ)), (2, 7)] = none ∧
    corrSq (alignedPairs (List.replicate 4 (3 : ℚ))
      (List.replicate 4 (3 : ℚ)) 1) = none ∧
    corrSq (alignedPairs [(5 : ℚ)] [(7 : ℚ)] 1) = none ∧
    spike_count [(5 : ℚ)] =
      List.countP (fun v => decide (30 < v)) [(5 : ℚ)] := by
  have h1 := (correlation_degenerate_C8.1 [((2 : ℚ), (5 : ℚ)), (2, 7)]
    (Or.inl (by norm_num [sxx, centeredPairs, meanFst, meanSnd]))).1
  have h2 := correlation_degenerate_C8.2.1 (3 : ℚ) 4 1
  have h3 := correlation_degenerate_C8.2.2 [(5 : ℚ)] [(7 : ℚ)] 1
    (by norm_num)
  exact ⟨h1, h2, h3.1, h3.2⟩

/-- Fields of the livepopulartimes response consumed by the pipeline
(dashboard.py get_live_popularity): the optional live reading and the
per-day populartimes table (each day a list of hourly values).  A missing
populartimes value is embedded as the empty table, which the source treats
identically through Python truthiness. -/
structure PlaceData where
  current_popularity : Option ℚ
  populartimes : List (List ℚ)

/-- Result record of dashboard.py get_live_popularity lines 42-110, keeping
the fields consumed downstream (name and rating are passed through verbatim
and do not affect the pipeline).  provenance and fallback_hour embed the
source's is_fallback flag and fallback_hour field. -/
structure PopResult where
  has_data : Bool
  error : Option String
  current : Option ℚ
  usual : Option ℚ
  provenance : Provenance
  fallback_hour : Option ℕ

/-- dashboard.py get_live_popularity lines 42-110.  The provider call runs
inside try/except: a raised exception (Except.error) or an empty response
(Except.ok none) is absorbed into a has_data = false record; otherwise
today's hourly data, the usual value for the current hour, and the fallback
search (normalize) are computed.  prev_day = (day_of_week - 1) % 7 is
(day + 6) % 7 on naturals. -/
def get_live_popularity (fetch : Except String (Option PlaceData))
    (day hour : ℕ) : PopResult :=
  match fetch with
  | Except.error e =>
    { has_data := false, error := some e, current := none, usual := none,
      provenance := Provenance.unavailable, fallback_hour := none }
  | Except.ok none =>
    { has_data := false, error := some "No data returned", current := none,
      usual := none, provenance := Provenance.unavailable,
      fallback_hour := none }
  | Except.ok (some d) =>
    let pt := d.populartimes
    let today := if pt ≠ [] ∧ day < pt.length then pt.getD day [] else []
    let usual :=
      if hour < today.length then some (today.getD hour 0) else none
    let prevIdx := (day + 6) % 7
    let prevOpt :=
      if pt ≠ [] ∧ prevIdx < pt.length then some (pt.getD prevIdx [])
      else none
    let r := normalize d.current_popularity today hour prevOpt
    { has_data := true, error := none, current := r.1, usual := usual,
      provenance := r.2.1, fallback_hour := r.2.2 }

/-- Result record of dashboard.py get_market_data lines 113-163.  The dates
attached to the history entries are presentational and dropped.  The outer
try/except of the source guards only the yfinance import, which the embedding
has no counterpart for; the per-ticker try/except blocks are modelled. -/
structure MarketResult where
  has_data : Bool
  vix : Option ℚ
  vix_change : Option ℚ
  vix_history : List ℚ
  gold : Option ℚ
  gold_change : Option ℚ
  gold_history : List ℚ

/-- Rounding of Python round(x) and numpy: round half to even. -/
def roundHalfEven (q : ℚ) : ℤ :=
  if q - ⌊q⌋ = 1 / 2 then (if ⌊q⌋ % 2 = 0 then ⌊q⌋ else ⌊q⌋ + 1)
  else round q

/-- round(x, 2) of the source. -/
def round2 (q : ℚ) : ℚ := (roundHalfEven (q * 100) : ℚ) / 100

/-- round(x, 1) of the source. -/
def round1 (q : ℚ) : ℚ := (roundHalfEven (q * 10) : ℚ) / 10

/-- dashboard.py get_market_data lines 113-163: each ticker is fetched in its
own try/except whose except body is pass, so a raised fetch leaves that
ticker's fields at their initialised None / empty values, as does an empty
history; the two tickers never touch each other's fields.  History rows are
(open, close) pairs; the last row carries iloc[-1]. -/
def get_market_data (vixFetch goldFetch : Except String (List (ℚ × ℚ))) :
    MarketResult :=
  let vixPart :=
    match vixFetch with
    | Except.error _ => ((none : Option ℚ), (none : Option ℚ), ([] : List ℚ))
    | Except.ok rows =>
      match rows.getLast? with
      | none => (none, none, [])
      | some lastRow =>
        (some (round2 lastRow.2),
         some (round2 ((lastRow.2 - lastRow.1) / lastRow.1 * 100)),
         rows.map (fun r : ℚ × ℚ => round2 r.2))
  let goldPart :=
    match goldFetch with
    | Except.error _ => ((none : Option ℚ), (none : Option ℚ), ([] : List ℚ))
    | Except.ok rows =>
      match rows.getLast? with
      | none => (none, none, [])
      | some lastRow =>
        (some (round2 lastRow.2),
         some (round2 ((lastRow.2 - lastRow.1) / lastRow.1 * 100)),
         rows.map (fun r : ℚ × ℚ => round2 r.2))
  { has_data := true, vix := vixPart.1, vix_change := vixPart.2.1,
    vix_history := vixPart.2.2, gold := goldPart.1,
    gold_change := goldPart.2.1, gold_history := goldPart.2.2 }

/-- Claim C9.  Provider failures are absorbed at the boundary: a raised venue
fetch or an empty venue response yields a has_data = false record with no
reading (never a propagated exception — the embedded pipeline is a total
function); a raised ticker fetch leaves that ticker's price fields empty; and
ticker failures are isolated, the gold fields never depending on the VIX
fetch outcome and conversely, so a failed gold fetch cannot invalidate a
successful VIX fetch in the same cycle. -/
theorem provider_failures_absorbed_C9 :
    (∀ (e : String) (day hour : ℕ),
      (get_live_popularity (Except.error e) day hour).has_data = false ∧
      (get_live_popularity (Except.error e) day hour).current = none) ∧
    (∀ day hour : ℕ,
      (get_live_popularity (Except.ok none) day hour).has_data = false ∧
      (get_live_popularity (Except.ok none) day hour).current = none) ∧
    (∀ (e : String) (gf : Except String (List (ℚ × ℚ))),
      (get_market_data (Except.error e) gf).vix = none ∧
      (get_market_data (Except.error e) gf).vix_change = none ∧
      (get_market_data (Except.error e) gf).vix_history = []) ∧
    (∀ vf vf2 gf : Except String (List (ℚ × ℚ)),
      (get_market_data vf gf).gold = (get_market_data vf2 gf).gold ∧
      (get_market_data vf gf).gold_change =
        (get_market_data vf2 gf).gold_change ∧
      (get_market_data vf gf).gold_history =
        (get_market_data vf2 gf).gold_history) ∧
    (∀ vf gf gf2 : Except String (List (ℚ × ℚ)),
      (get_market_data vf gf).vix = (get_market_data vf gf2).vix ∧
      (get_market_data vf gf).vix_change =
        (get_market_data vf gf2).vix_change ∧
      (get_market_data vf gf).vix_history =
        (get_market_data vf gf2).vix_history) :=
  ⟨fun _ _ _ => ⟨rfl, rfl⟩, fun _ _ => ⟨rfl, rfl⟩,
   fun _ _ => ⟨rfl, rfl, rfl⟩, fun _ _ _ => ⟨rfl, rfl, rfl⟩,
   fun _ _ _ => ⟨rfl, rfl, rfl⟩⟩

/-- The three 30-point series of generate_simulated_historical_data
(dashboard.py lines 166-199); the dates list is presentational and not
modelled. -/
structure HistData where
  pizza_index : List ℚ
  vix : List ℚ
  gold : List ℚ

/-- In-place addition pizza_base[i] += v of the source. -/
def addAt (l : List ℚ) (i : ℕ) (v : ℚ) : List ℚ := l.set i (l.getD i 0 + v)

/-- Clamp used in the output lists: max(lo, min(hi, v)). -/
def clipQ (lo hi v : ℚ) : ℚ := max lo (min hi v)

/-- dashboard.py generate_simulated_historical_data lines 166-199.  The
function begins with np.random.seed(42), which resets numpy's global PRNG, so
every call consumes one and the same fixed sequence of draws; that sequence
is the stream parameter, indexed in draw order: draws 0-29 are the
normal(0,15,30) pizza base, 30-35 the six uniform crisis adjustments for days
5/6, 12/13 and 22/23 (each day + 1 is below 30, so all six draws happen),
36-65 the normal(0,2,30) VIX noise, 66-95 the normal(5,15,30) gold
increments consumed through cumsum.  The VIX adjustment loop and the gold
adjustment loop both run over i in range(1, 30) and read, respectively, the
crisis-adjusted pizza base and the adjusted VIX base. -/
def generate_simulated_historical_data (stream : ℕ → ℚ) : HistData :=
  let pizza0 := (List.range 30).map (fun i => stream i)
  let pizza1 := addAt (addAt pizza0 5 (stream 30)) 6 (stream 31)
  let pizza2 := addAt (addAt pizza1 12 (stream 32)) 13 (stream 33)
  let pizza3 := addAt (addAt pizza2 22 (stream 34)) 23 (stream 35)
  let vix0 := (List.range 30).map (fun i => 18 + stream (36 + i))
  let vix1 := (List.range 30).map (fun i =>
    if 1 ≤ i ∧ 25 < pizza3.getD (i - 1) 0 then
      vix0.getD i 0 + (pizza3.getD (i - 1) 0 - 25) * (15 / 100)
    else vix0.getD i 0)
  let gold0 := (List.range 30).map (fun i =>
    2650 + ((List.range (i + 1)).map (fun k => stream (66 + k))).sum)
  let gold1 := (List.range 30).map (fun i =>
    if 1 ≤ i ∧ 20 < vix1.getD i 0 then
      gold0.getD i 0 + (vix1.getD i 0 - 20) * 8
    else gold0.getD i 0)
  { pizza_index := pizza3.map (fun v => round1 (clipQ (-50) 100 v)),
    vix := vix1.map (fun v => round2 (clipQ 10 40 v)),
    gold := gold1.map (fun v => round2 v) }

/-- The /api/data response fields relevant to the claims (dashboard.py
get_data lines 1151-1205).  The correlation field carries corrSq of the
dashboard's aligned pairs: the source's scalar is
round(sxy / sqrt(sxx * syy), 3), a function of those statistics and of the
pair list (both determined by the historical data), so identity of this
field across calls entails identity of the reported coefficient.  The
accuracy and lead_time fields are hard-coded constants in the source and
omitted. -/
structure ApiData where
  sensors : List PopResult
  market : MarketResult
  composite_score : Option ℚ
  historical : HistData
  correlation : Option ℚ
  spike_count : ℕ

/-- dashboard.py get_data lines 1151-1205: each configured sensor's fetch
outcome is normalized, the composite is computed from the (current, usual)
pairs, and the correlation and spike count are computed exclusively from the
seeded simulated historical data. -/
def get_data (stream : ℕ → ℚ)
    (fetches : List (Except String (Option PlaceData))) (day hour : ℕ)
    (vixFetch goldFetch : Except String (List (ℚ × ℚ))) : ApiData :=
  let sensors_data := fetches.map (fun f => get_live_popularity f day hour)
  let market := get_market_data vixFetch goldFetch
  let composite :=
    get_data_composite (sensors_data.map (fun r => (r.current, r.usual)))
  let historical := generate_simulated_historical_data stream
  { sensors := sensors_data, market := market, composite_score := composite,
    historical := historical,
    correlation :=
      corrSq (dashboard_aligned_pairs historical.pizza_index historical.vix),
    spike_count := spike_count historical.pizza_index }

/-- Claim C10.  Across any two invocations of the response pipeline in which
the live sensor fetches, the market fetches and the clock inputs differ
arbitrarily, the reported correlation and spike count are identical, because
both are computed exclusively from the simulated historical data generated
from the stream numpy's PRNG produces after the fixed np.random.seed(42) —
the same stream on every call. -/
theorem correlation_independent_of_live_inputs_C10 :
    ∀ (stream : ℕ → ℚ)
      (f1 f2 : List (Except String (Option PlaceData)))
      (d1 h1 d2 h2 : ℕ)
      (v1 g1 v2 g2 : Except String (List (ℚ × ℚ))),
      (get_data stream f1 d1 h1 v1 g1).correlation =
        (get_data stream f2 d2 h2 v2 g2).correlation ∧
      (get_data stream f1 d1 h1 v1 g1).spike_count =
        (get_data stream f2 d2 h2 v2 g2).spike_count :=
  fun _ _ _ _ _ _ _ _ _ _ _ => ⟨rfl, rfl⟩

end PPI
